import Mathlib

/-!
Verification of the staged EPUB file-loading pipeline
(src/rig-core/src/loaders/epub.rs).

The embedding models:
- `PathBuf` as the byte sequence of a filesystem path;
- the external document-parsing collaborator (the `epub` crate's
  `EpubDoc::new`) as a deterministic function `FS` from a path to either an
  opened document or a `DocError` — nonexistent files and malformed
  containers are exactly the paths the collaborator maps to `.error`;
- the `Loadable` trait with its two impls (for `PathBuf` and, blanket, for
  `Result<T, EpubLoaderError>`);
- `EpubFileLoader<T>` as a pipeline holding its materialized item sequence
  (the Rust value holds a boxed lazy iterator; the spec states eager
  collection is an acceptable simplification), with the two stage
  transitions `load` and `load_with_path`;
- an instrumented variant threading the trace of collaborator invocations,
  for the effect claims;
- a deep embedding `Transition` of the stage-transition surface the source
  defines, for the static-stage-discipline claim.
-/

namespace RigEpub

/-- A filesystem path (Rust `PathBuf`), modelled byte-for-byte as its byte
sequence. -/
abbrev PathBuf := List Nat

/-- Error payload of the filesystem/enumeration collaborator
(`FileLoaderError` from the sibling `file` module, kept abstract as a code). -/
structure FileLoaderError where
  code : Nat
deriving DecidableEq

/-- Error payload of a failed UTF-8 conversion
(`std::string::FromUtf8Error`, kept abstract as a code). -/
structure FromUtf8Error where
  code : Nat
deriving DecidableEq

/-- Error payload of the document-parsing collaborator
(`epub::doc::DocError`, kept abstract as a code). -/
structure DocError where
  code : Nat
deriving DecidableEq

/-- An opened document handle (`EpubDoc<BufReader<File>>`), kept abstract as
an identifier. -/
structure EpubDoc where
  id : Nat
deriving DecidableEq

/-- Rust `enum EpubLoaderError`: the error union over the
filesystem/enumeration error, the UTF-8 conversion error, and the
document-parse error (`EpubError` wrapping the collaborator's `DocError`). -/
inductive EpubLoaderError where
  | FileLoaderError (e : FileLoaderError)
  | FromUtf8Error (e : FromUtf8Error)
  | EpubError (e : DocError)
deriving DecidableEq

/-- Deterministic model of the document-parsing collaborator
(`EpubDoc::new`): each path either opens to a document or fails with a
`DocError`. -/
abbrev FS := PathBuf → Except DocError EpubDoc

/-- Rust trait `Loadable`. The collaborator model `fs` is passed explicitly
where the Rust code calls the ambient `EpubDoc::new`. -/
class Loadable (α : Type) where
  load : FS → α → Except EpubLoaderError EpubDoc
  load_with_path : FS → α → Except EpubLoaderError (PathBuf × EpubDoc)

/-- Rust `impl Loadable for PathBuf`, `fn load`:
`EpubDoc::new(self).map_err(EpubLoaderError::EpubError)`. -/
def PathBuf.load (fs : FS) (p : PathBuf) : Except EpubLoaderError EpubDoc :=
  (fs p).mapError EpubLoaderError.EpubError

/-- Rust `impl Loadable for PathBuf`, `fn load_with_path`:
`let contents = EpubDoc::new(&self); Ok((self, contents?))` — the `?`
converts a `DocError` into `EpubLoaderError::EpubError`, and the pair's
first component is the original `self`. -/
def PathBuf.load_with_path (fs : FS) (p : PathBuf) :
    Except EpubLoaderError (PathBuf × EpubDoc) :=
  match fs p with
  | .error e => .error (EpubLoaderError.EpubError e)
  | .ok contents => .ok (p, contents)

instance instLoadablePathBuf : Loadable PathBuf where
  load := PathBuf.load
  load_with_path := PathBuf.load_with_path

/-- Rust blanket `impl<T: Loadable> Loadable for Result<T, EpubLoaderError>`:
`self.map(|t| t.load())?` — a pre-existing `Err` is returned unchanged, an
`Ok` delegates to the inner value's impl. -/
instance instLoadableExcept {α : Type} [Loadable α] :
    Loadable (Except EpubLoaderError α) where
  load fs x :=
    match x.map (fun t => Loadable.load fs t) with
    | .error e => .error e
    | .ok r => r
  load_with_path fs x :=
    match x.map (fun t => Loadable.load_with_path fs t) with
    | .error e => .error e
    | .ok r => r

/-- Rust `struct EpubFileLoader<'a, T>`: a pipeline stage wrapping one item
sequence; the stage is the type parameter `T`, not a runtime field. -/
structure EpubFileLoader (T : Type) where
  iterator : List T

/-- Rust `EpubFileLoader::load` (defined only on the
`Result<PathBuf, EpubLoaderError>` instantiation): maps `res.load()` over
the item sequence. -/
def EpubFileLoader.load (fs : FS)
    (self : EpubFileLoader (Except EpubLoaderError PathBuf)) :
    EpubFileLoader (Except EpubLoaderError EpubDoc) :=
  ⟨self.iterator.map (fun res => Loadable.load fs res)⟩

/-- Rust `EpubFileLoader::load_with_path` (defined only on the
`Result<PathBuf, EpubLoaderError>` instantiation): maps
`res.load_with_path()` over the item sequence. -/
def EpubFileLoader.load_with_path (fs : FS)
    (self : EpubFileLoader (Except EpubLoaderError PathBuf)) :
    EpubFileLoader (Except EpubLoaderError (PathBuf × EpubDoc)) :=
  ⟨self.iterator.map (fun res => Loadable.load_with_path fs res)⟩

/-- The construction-time failure of pipeline enumeration; in the code's
taxonomy it is the filesystem/enumeration variant's payload. -/
abbrev EnumerationError := FileLoaderError

/-- Model of the enumeration collaborator (the `glob` crate): whether a
pattern is syntactically valid, the ordered items it enumerates when valid,
and the pattern error reported when invalid. -/
structure GlobEnv where
  valid : List Nat → Bool
  entries : List Nat → List (Except EpubLoaderError PathBuf)
  patternError : List Nat → EnumerationError

/-- Modelled from the spec: the constructor `EpubFileLoader::with_glob` is
referenced by the source's doc comments but its definition is not among the
provided files. Per the spec, a syntactically invalid glob pattern fails at
construction time with an enumeration error before any item is produced,
and a valid pattern hands the enumerated, ordered candidate items to the
pipeline as its underlying sequence. -/
def EpubFileLoader.with_glob (env : GlobEnv) (pattern : List Nat) :
    Except EnumerationError (EpubFileLoader (Except EpubLoaderError PathBuf)) :=
  if env.valid pattern then .ok ⟨env.entries pattern⟩
  else .error (env.patternError pattern)

/-- Instrumented model of one collaborator invocation (`EpubDoc::new`):
returns the result together with the trace of paths it opened — one open
attempt per call, no retries. -/
def epubDocNewTraced (fs : FS) (p : PathBuf) :
    Except DocError EpubDoc × List PathBuf :=
  (fs p, [p])

/-- `PathBuf::load` with its collaborator-call trace threaded through. -/
def PathBuf.loadTraced (fs : FS) (p : PathBuf) :
    Except EpubLoaderError EpubDoc × List PathBuf :=
  ((epubDocNewTraced fs p).1.mapError EpubLoaderError.EpubError,
    (epubDocNewTraced fs p).2)

/-- `PathBuf::load_with_path` with its collaborator-call trace threaded
through. -/
def PathBuf.loadWithPathTraced (fs : FS) (p : PathBuf) :
    Except EpubLoaderError (PathBuf × EpubDoc) × List PathBuf :=
  (match (epubDocNewTraced fs p).1 with
    | .error e => .error (EpubLoaderError.EpubError e)
    | .ok contents => .ok (p, contents),
   (epubDocNewTraced fs p).2)

/-- The blanket impl's `load` with its collaborator-call trace: an `Err`
input performs no collaborator call at all. -/
def exceptLoadTraced (fs : FS) :
    Except EpubLoaderError PathBuf →
      Except EpubLoaderError EpubDoc × List PathBuf
  | .error e => (.error e, [])
  | .ok p => PathBuf.loadTraced fs p

/-- The blanket impl's `load_with_path` with its collaborator-call trace. -/
def exceptLoadWithPathTraced (fs : FS) :
    Except EpubLoaderError PathBuf →
      Except EpubLoaderError (PathBuf × EpubDoc) × List PathBuf
  | .error e => (.error e, [])
  | .ok p => PathBuf.loadWithPathTraced fs p

/-- The pipeline stages the source names: fallible candidate path, fallible
opened document, fallible path-and-document pair. -/
inductive Stage where
  | falliblePath
  | fallibleDoc
  | fallibleDocWithPath
deriving DecidableEq

/-- The item type each stage carries — the pipeline's type parameter at
that stage. -/
def Stage.ItemType : Stage → Type
  | .falliblePath => Except EpubLoaderError PathBuf
  | .fallibleDoc => Except EpubLoaderError EpubDoc
  | .fallibleDocWithPath => Except EpubLoaderError (PathBuf × EpubDoc)

/-- Deep embedding of the stage-transition surface the source defines: the
only transition methods are `load` and `load_with_path`, both available
solely on the fallible-path instantiation (the impl block on
`EpubFileLoader<Result<PathBuf, EpubLoaderError>>`). -/
inductive Transition : Stage → Stage → Type where
  | load : Transition .falliblePath .fallibleDoc
  | load_with_path : Transition .falliblePath .fallibleDocWithPath

/-- Interpretation of each declared transition as its pipeline function. -/
def Transition.run {s t : Stage} (fs : FS) :
    Transition s t → EpubFileLoader s.ItemType → EpubFileLoader t.ItemType
  | .load => EpubFileLoader.load fs
  | .load_with_path => EpubFileLoader.load_with_path fs

theorem loadable_ok_load (fs : FS) (p : PathBuf) :
    Loadable.load fs (Except.ok p : Except EpubLoaderError PathBuf)
      = PathBuf.load fs p := rfl

theorem loadable_err_load (fs : FS) (e : EpubLoaderError) :
    Loadable.load fs (Except.error e : Except EpubLoaderError PathBuf)
      = .error e := rfl

theorem loadable_ok_lwp (fs : FS) (p : PathBuf) :
    Loadable.load_with_path fs (Except.ok p : Except EpubLoaderError PathBuf)
      = PathBuf.load_with_path fs p := rfl

theorem loadable_err_lwp (fs : FS) (e : EpubLoaderError) :
    Loadable.load_with_path fs (Except.error e : Except EpubLoaderError PathBuf)
      = .error e := rfl

/-- C1: for every (possibly empty) ordered sequence of fallible candidate
path items, one `load` (or `load_with_path`) transition yields exactly as
many items, and the item at every index is the per-item resolution of the
input item at that same index — nothing is dropped, duplicated or
reordered. -/
theorem load_preserves_count_and_order (fs : FS)
    (items : List (Except EpubLoaderError PathBuf)) :
    ((EpubFileLoader.mk items).load fs).iterator.length = items.length
      ∧ (∀ i : Nat, ((EpubFileLoader.mk items).load fs).iterator[i]?
          = (items[i]?).map (fun res => Loadable.load fs res))
      ∧ ((EpubFileLoader.mk items).load_with_path fs).iterator.length
          = items.length
      ∧ (∀ i : Nat,
          ((EpubFileLoader.mk items).load_with_path fs).iterator[i]?
            = (items[i]?).map (fun res => Loadable.load_with_path fs res)) := by
  refine ⟨?_, fun i => ?_, ?_, fun i => ?_⟩ <;>
    simp [EpubFileLoader.load, EpubFileLoader.load_with_path]

/-- C2: an item that is already `Err e` passes through `load` and
`load_with_path` with the identical error value, and an `Ok` item is
resolved exactly by the inner value's own impl (for a path: the bare-path
resolver). -/
theorem result_loadable_err_passthrough_ok_delegates
    {α : Type} [Loadable α] (fs : FS) (e : EpubLoaderError) (t : α)
    (p : PathBuf) :
    Loadable.load fs (Except.error e : Except EpubLoaderError α) = .error e
      ∧ Loadable.load_with_path fs (Except.error e : Except EpubLoaderError α)
          = .error e
      ∧ Loadable.load fs (Except.ok t : Except EpubLoaderError α)
          = Loadable.load fs t
      ∧ Loadable.load_with_path fs (Except.ok t : Except EpubLoaderError α)
          = Loadable.load_with_path fs t
      ∧ Loadable.load fs (Except.ok p : Except EpubLoaderError PathBuf)
          = PathBuf.load fs p
      ∧ Loadable.load_with_path fs (Except.ok p : Except EpubLoaderError PathBuf)
          = PathBuf.load_with_path fs p :=
  ⟨rfl, rfl, rfl, rfl, rfl, rfl⟩

/-- C3: whenever `load_with_path` succeeds, the pair's path component is the
original candidate path itself, byte-for-byte (paths are byte sequences and
the equality is list equality). -/
theorem load_with_path_returns_original_path (fs : FS) (p : PathBuf)
    (pr : PathBuf × EpubDoc)
    (h : PathBuf.load_with_path fs p = .ok pr) : pr.1 = p := by
  cases hfs : fs p with
  | error e => simp [PathBuf.load_with_path, hfs] at h
  | ok d =>
      simp [PathBuf.load_with_path, hfs] at h
      simp [← h]

theorem load_with_path_returns_original_path_w :
    ((([7], ⟨0⟩) : PathBuf × EpubDoc)).1 = ([7] : PathBuf) :=
  load_with_path_returns_original_path (fun _ => .ok ⟨0⟩) [7] ([7], ⟨0⟩) rfl

/-- C4: a path the collaborator cannot open (nonexistent or malformed
container) makes `load` and `load_with_path` return the `Err` branch
carrying the classified document-parse error, and the pipeline continues
with the remaining candidates (the functions are total — nothing panics or
aborts). -/
theorem bad_path_errs_and_pipeline_continues (fs : FS) (p : PathBuf)
    (e : DocError) (rest : List (Except EpubLoaderError PathBuf))
    (h : fs p = .error e) :
    PathBuf.load fs p = .error (EpubLoaderError.EpubError e)
      ∧ PathBuf.load_with_path fs p = .error (EpubLoaderError.EpubError e)
      ∧ ((EpubFileLoader.mk (Except.ok p :: rest)).load fs).iterator
          = .error (EpubLoaderError.EpubError e)
              :: ((EpubFileLoader.mk rest).load fs).iterator
      ∧ ((EpubFileLoader.mk (Except.ok p :: rest)).load_with_path fs).iterator
          = .error (EpubLoaderError.EpubError e)
              :: ((EpubFileLoader.mk rest).load_with_path fs).iterator := by
  have h1 : PathBuf.load fs p = .error (EpubLoaderError.EpubError e) := by
    simp [PathBuf.load, h, Except.mapError]
  have h2 : PathBuf.load_with_path fs p
      = .error (EpubLoaderError.EpubError e) := by
    simp [PathBuf.load_with_path, h]
  refine ⟨h1, h2, ?_, ?_⟩
  · show Loadable.load fs (Except.ok p : Except EpubLoaderError PathBuf)
        :: _ = _
    rw [loadable_ok_load, h1]
    rfl
  · show Loadable.load_with_path fs
        (Except.ok p : Except EpubLoaderError PathBuf) :: _ = _
    rw [loadable_ok_lwp, h2]
    rfl

theorem bad_path_errs_and_pipeline_continues_w :
    PathBuf.load (fun _ => .error ⟨5⟩) [1]
        = .error (EpubLoaderError.EpubError ⟨5⟩)
      ∧ PathBuf.load_with_path (fun _ => .error ⟨5⟩) [1]
          = .error (EpubLoaderError.EpubError ⟨5⟩)
      ∧ ((EpubFileLoader.mk (Except.ok [1] :: [Except.ok [2]])).load
            (fun _ => .error ⟨5⟩)).iterator
          = .error (EpubLoaderError.EpubError ⟨5⟩)
              :: ((EpubFileLoader.mk [Except.ok [2]]).load
                    (fun _ => .error ⟨5⟩)).iterator
      ∧ ((EpubFileLoader.mk
            (Except.ok [1] :: [Except.ok [2]])).load_with_path
            (fun _ => .error ⟨5⟩)).iterator
          = .error (EpubLoaderError.EpubError ⟨5⟩)
              :: ((EpubFileLoader.mk [Except.ok [2]]).load_with_path
                    (fun _ => .error ⟨5⟩)).iterator :=
  bad_path_errs_and_pipeline_continues (fun _ => .error ⟨5⟩) [1] ⟨5⟩
    [Except.ok [2]] rfl

/-- C5: constructing a pipeline from a syntactically invalid glob pattern
fails at construction time with the enumeration error, surfaced directly to
the caller — no pipeline value (hence no item) is ever produced. -/
theorem with_glob_invalid_pattern_fails_at_construction
    (env : GlobEnv) (pattern : List Nat) (h : env.valid pattern = false) :
    EpubFileLoader.with_glob env pattern = .error (env.patternError pattern)
      ∧ ∀ l, EpubFileLoader.with_glob env pattern ≠ .ok l := by
  refine ⟨?_, fun l hl => ?_⟩
  · simp [EpubFileLoader.with_glob, h]
  · simp [EpubFileLoader.with_glob, h] at hl

theorem with_glob_invalid_pattern_fails_at_construction_w :
    EpubFileLoader.with_glob
        ⟨fun _ => false, fun _ => [], fun _ => ⟨3⟩⟩ [1]
        = .error ⟨3⟩
      ∧ ∀ l, EpubFileLoader.with_glob
          ⟨fun _ => false, fun _ => [], fun _ => ⟨3⟩⟩ [1] ≠ .ok l :=
  with_glob_invalid_pattern_fails_at_construction
    ⟨fun _ => false, fun _ => [], fun _ => ⟨3⟩⟩ [1] rfl

/-- C6: a valid glob pattern with zero matches constructs successfully (it
is `Ok`, not an error), and the resulting empty pipeline materializes to
the empty sequence after either available stage transition. -/
theorem with_glob_zero_matches_materializes_empty
    (env : GlobEnv) (pattern : List Nat) (fs : FS)
    (hv : env.valid pattern = true) (hz : env.entries pattern = []) :
    EpubFileLoader.with_glob env pattern = .ok (EpubFileLoader.mk [])
      ∧ ((EpubFileLoader.mk
            ([] : List (Except EpubLoaderError PathBuf))).load fs).iterator
          = []
      ∧ ((EpubFileLoader.mk
            ([] : List (Except EpubLoaderError PathBuf))).load_with_path
            fs).iterator = [] := by
  refine ⟨?_, rfl, rfl⟩
  simp [EpubFileLoader.with_glob, hv, hz]

theorem with_glob_zero_matches_materializes_empty_w :
    EpubFileLoader.with_glob
        ⟨fun _ => true, fun _ => [], fun _ => ⟨3⟩⟩ [1]
        = .ok (EpubFileLoader.mk [])
      ∧ ((EpubFileLoader.mk
            ([] : List (Except EpubLoaderError PathBuf))).load
            (fun _ => .ok ⟨0⟩)).iterator = []
      ∧ ((EpubFileLoader.mk
            ([] : List (Except EpubLoaderError PathBuf))).load_with_path
            (fun _ => .ok ⟨0⟩)).iterator = [] :=
  with_glob_zero_matches_materializes_empty
    ⟨fun _ => true, fun _ => [], fun _ => ⟨3⟩⟩ [1] (fun _ => .ok ⟨0⟩)
    rfl rfl

/-- C7: in the deep embedding of the source's stage-transition surface,
every declared transition starts at the fallible-path stage, the only
transition into the opened-document stage is `load`, and the only one into
the path-and-document stage is `load_with_path`; the stage lives in the
type index of `Transition` (and in the pipeline's type parameter), not in
any runtime tag. -/
theorem stage_transitions_only_from_fallible_path
    {s t : Stage} (tr : Transition s t) :
    s = Stage.falliblePath
      ∧ (t = Stage.fallibleDoc → HEq tr Transition.load)
      ∧ (t = Stage.fallibleDocWithPath → HEq tr Transition.load_with_path)
      ∧ (t = Stage.falliblePath → False) := by
  cases tr <;> refine ⟨rfl, ?_, ?_, ?_⟩ <;> intro ht <;> first
    | exact HEq.refl _
    | exact Stage.noConfusion ht

theorem stage_transitions_only_from_fallible_path_w :
    Stage.falliblePath = Stage.falliblePath
      ∧ (Stage.fallibleDoc = Stage.fallibleDoc → HEq Transition.load Transition.load)
      ∧ (Stage.fallibleDoc = Stage.fallibleDocWithPath
          → HEq Transition.load Transition.load_with_path)
      ∧ (Stage.fallibleDoc = Stage.falliblePath → False) :=
  stage_transitions_only_from_fallible_path Transition.load

/-- C8: in the instrumented model, resolving an `Ok` path performs exactly
one collaborator open attempt (on that very path, with no retry and no
cache), resolving an `Err` input performs zero open attempts, and the
instrumented result agrees with the uninstrumented transition. -/
theorem resolver_performs_exactly_one_open (fs : FS) (p : PathBuf)
    (e : EpubLoaderError) :
    (exceptLoadTraced fs (.ok p)).2 = [p]
      ∧ (exceptLoadWithPathTraced fs (.ok p)).2 = [p]
      ∧ (exceptLoadTraced fs (.error e)).2 = []
      ∧ (exceptLoadWithPathTraced fs (.error e)).2 = []
      ∧ (exceptLoadTraced fs (.ok p)).1
          = Loadable.load fs (Except.ok p : Except EpubLoaderError PathBuf)
      ∧ (exceptLoadWithPathTraced fs (.ok p)).1
          = Loadable.load_with_path fs
              (Except.ok p : Except EpubLoaderError PathBuf)
      ∧ (exceptLoadTraced fs (.error e)).1 = .error e
      ∧ (exceptLoadWithPathTraced fs (.error e)).1 = .error e :=
  ⟨rfl, rfl, rfl, rfl, rfl, rfl, rfl, rfl⟩

/-- C9: under the deterministic collaborator model, `load` is exactly
`load_with_path` followed by dropping the path component: it succeeds iff
`load_with_path` succeeds, with the same document on success and the same
classified error on failure. -/
theorem load_eq_load_with_path_drop_path (fs : FS) (p : PathBuf) :
    PathBuf.load fs p
        = Except.map Prod.snd (PathBuf.load_with_path fs p)
      ∧ ((∃ d, PathBuf.load fs p = .ok d)
          ↔ (∃ pr, PathBuf.load_with_path fs p = .ok pr)) := by
  cases hfs : fs p <;>
    simp [PathBuf.load, PathBuf.load_with_path, hfs, Except.mapError,
      Except.map]

/-- C10: an error newly produced by `load` or `load_with_path` on an `Ok`
candidate path is always the document-parse variant (`EpubError` wrapping
the collaborator's `DocError`), never the filesystem/enumeration variant
and never the encoding-conversion variant. -/
theorem new_errors_are_epub_error_variant (fs : FS) (p : PathBuf)
    (err : EpubLoaderError) :
    (Loadable.load fs (Except.ok p : Except EpubLoaderError PathBuf)
          = .error err
        → ∃ d, err = EpubLoaderError.EpubError d)
      ∧ (Loadable.load_with_path fs
            (Except.ok p : Except EpubLoaderError PathBuf) = .error err
        → ∃ d, err = EpubLoaderError.EpubError d) := by
  rw [loadable_ok_load, loadable_ok_lwp]
  cases hfs : fs p <;>
    · constructor <;> intro h <;>
        simp [PathBuf.load, PathBuf.load_with_path, hfs, Except.mapError]
          at h <;>
        exact ⟨_, h.symm⟩

end RigEpub
